import Mathlib

/-!
# gstreamer_framefilter: the H.264 key-frame filter element and its player

Shallow embedding of

* `src/gstframefilter.c`: the chain function `gst_frame_filter_chain` of the
  `frame_filter` element, together with its function-local static counter
  `chain_called`;
* `src/c/mp4-h264-key.c`: `pad_added_handler` and `main`.

The GStreamer framework is the environment.  What the program observes of it
(the status a downstream push returns, whether an element could be created,
what `gst_pad_link` answers, which messages the bus delivers) is an input of
the model; what the program does to it (`gst_pad_push`, `g_print`,
`gst_pad_link`, `gst_element_set_state`) is recorded in a trace.
-/

/-! ## Part 1: `src/gstframefilter.c` -/

/-- Width of a `guint`: arithmetic on `chain_called` is modulo this value. -/
def G_MAXUINT_SUCC : Nat := 2 ^ 32

/-- `GstFlowReturn` is a C enum; its values are kept as integers. -/
abbrev GstFlowReturn := Int

/-- Value of `GST_FLOW_OK` in `gstpad.h`. -/
def GST_FLOW_OK : GstFlowReturn := 0

/-- Value of `GST_FLOW_NOT_LINKED` in `gstpad.h`. -/
def GST_FLOW_NOT_LINKED : GstFlowReturn := -1

/-- Value of `GST_FLOW_FLUSHING` in `gstpad.h`. -/
def GST_FLOW_FLUSHING : GstFlowReturn := -2

/-- Value of `GST_FLOW_EOS` in `gstpad.h`. -/
def GST_FLOW_EOS : GstFlowReturn := -3

/-- Value of `GST_FLOW_ERROR` in `gstpad.h`. -/
def GST_FLOW_ERROR : GstFlowReturn := -5

/-- Value of `GST_MINI_OBJECT_FLAG_LAST` in `gstminiobject.h`: `1 << 4`. -/
def GST_MINI_OBJECT_FLAG_LAST : Nat := 2 ^ 4

/-- Value of `GST_BUFFER_FLAG_DISCONT`: `GST_MINI_OBJECT_FLAG_LAST << 2`. -/
def GST_BUFFER_FLAG_DISCONT : Nat := GST_MINI_OBJECT_FLAG_LAST * 2 ^ 2

/-- Value of `GST_BUFFER_FLAG_CORRUPTED`: `GST_MINI_OBJECT_FLAG_LAST << 4`. -/
def GST_BUFFER_FLAG_CORRUPTED : Nat := GST_MINI_OBJECT_FLAG_LAST * 2 ^ 4

/-- Value of `GST_BUFFER_FLAG_DELTA_UNIT`: `GST_MINI_OBJECT_FLAG_LAST << 9`,
that is bit 13 of the flags word. -/
def GST_BUFFER_FLAG_DELTA_UNIT : Nat := GST_MINI_OBJECT_FLAG_LAST * 2 ^ 9

/-- A `GstBuffer` as far as the element can see it: the address the pointer
`buf` holds, the `guint` flags word of its mini object, and its payload. -/
structure GstBuffer where
  addr : Nat
  flags : Nat
  data : List Nat
  deriving DecidableEq

/-- The macro `GST_BUFFER_FLAG_IS_SET (buf, flag)`, which expands to
`!!(GST_MINI_OBJECT_FLAGS (buf) & (flag))`. -/
def GST_BUFFER_FLAG_IS_SET (buf : GstBuffer) (flag : Nat) : Bool :=
  (buf.flags &&& flag) != 0

/-- Everything the chain function reads or writes besides its arguments.

* `chain_called` is the `static guint chain_called` of
  `gst_frame_filter_chain`; being static, it is shared by every instance of
  the element in the process.
* `stdout` lists the numbers printed by `g_print ("Key frame number %u\n", _)`.
* `pushed` lists the calls of `gst_pad_push`, oldest first, as the pad pushed
  on and the buffer handed over.
* `downstream` is the state of whatever lies behind the last source pad. -/
structure World (σ : Type) where
  chain_called : Nat
  stdout : List Nat
  pushed : List (Nat × GstBuffer)
  downstream : σ

/-- A chain function, seen as a transformer of the world. -/
abbrev ChainFn (σ : Type) := GstBuffer → World σ → GstFlowReturn × World σ

/-- A source pad: its identity and the chain function of the pad it is linked to. -/
structure GstPad (σ : Type) where
  id : Nat
  peer_chain : ChainFn σ

/-- The instance structure `struct _GstFrameFilter`; of its members only
`srcpad` is read by the chain function. -/
structure GstFrameFilter (σ : Type) where
  sinkpad : Nat
  srcpad : GstPad σ

/-- The framework call `gst_pad_push (pad, buf)`: the call is recorded and the
buffer is given to the chain function of the peer, whose status is returned. -/
def gst_pad_push {σ : Type} (pad : GstPad σ) (buf : GstBuffer) (w : World σ) :
    GstFlowReturn × World σ :=
  pad.peer_chain buf { w with pushed := w.pushed ++ [(pad.id, buf)] }

/-- A peer outside this repository: an arbitrary state machine that answers
each buffer with a status.  It has no access to `chain_called`. -/
def external_chain {σ : Type} (down : GstBuffer → σ → GstFlowReturn × σ) : ChainFn σ :=
  fun buf w => ((down buf w.downstream).1, { w with downstream := (down buf w.downstream).2 })

/-- The chain function of `src/gstframefilter.c`, lines 79-92.  The argument
`pad` of the C function is unused and omitted; `parent` is `filter`. -/
def gst_frame_filter_chain {σ : Type} (filter : GstFrameFilter σ) (buf : GstBuffer)
    (w : World σ) : GstFlowReturn × World σ :=
  -- chain_called++;
  let w1 : World σ := { w with chain_called := (w.chain_called + 1) % G_MAXUINT_SUCC }
  if ! GST_BUFFER_FLAG_IS_SET buf GST_BUFFER_FLAG_DELTA_UNIT then
    -- g_print ("Key frame number %u\n", chain_called);
    let w2 : World σ := { w1 with stdout := w1.stdout ++ [w1.chain_called] }
    -- return gst_pad_push (filter->srcpad, buf);
    gst_pad_push filter.srcpad buf w2
  else
    (GST_FLOW_OK, w1)

/-- The world at program start: `chain_called = 0`, nothing printed or pushed. -/
def World.init {σ : Type} (s : σ) : World σ :=
  { chain_called := 0, stdout := [], pushed := [], downstream := s }

/-- Upstream delivering frames one at a time, in order, to a chain function,
going on whatever status comes back.  Returns the statuses and the final world. -/
def deliver {σ : Type} (chain : ChainFn σ) : List GstBuffer → World σ →
    List GstFlowReturn × World σ
  | [], w => ([], w)
  | buf :: rest, w =>
    let r := chain buf w
    let rs := deliver chain rest r.2
    (r.1 :: rs.1, rs.2)

/-- A frame filter whose source pad `pad` is linked to an external peer. -/
def filter_to {σ : Type} (pad : Nat) (down : GstBuffer → σ → GstFlowReturn × σ) :
    GstFrameFilter σ :=
  { sinkpad := pad + 1, srcpad := { id := pad, peer_chain := external_chain down } }

/-- Two frame filters in series in one pipeline: the source pad `pad1` of the
first is linked to the sink pad of the second, whose source pad `pad2` is
linked to an external peer. -/
def filter_series {σ : Type} (pad1 pad2 : Nat) (down : GstBuffer → σ → GstFlowReturn × σ) :
    GstFrameFilter σ :=
  { sinkpad := pad1 + 1,
    srcpad := { id := pad1, peer_chain := gst_frame_filter_chain (filter_to pad2 down) } }

/-- The buffers pushed on pad `pad`, oldest first. -/
def pushed_on (pad : Nat) (trace : List (Nat × GstBuffer)) : List GstBuffer :=
  (trace.filter (fun e => e.1 == pad)).map (fun e => e.2)

/-- A frame at address `addr` whose only flag is the delta-unit flag, set or not. -/
def frame (addr : Nat) (delta : Bool) : GstBuffer :=
  { addr := addr, flags := if delta then GST_BUFFER_FLAG_DELTA_UNIT else 0, data := [addr] }

/-- A peer that answers every buffer with the same status and counts its calls. -/
def answering (status : GstFlowReturn) : GstBuffer → Nat → GstFlowReturn × Nat :=
  fun _ n => (status, n + 1)

/-- The frames of the scenario with tags `[false, true, true, false, true]`. -/
def scenario : List GstBuffer :=
  [frame 0 false, frame 1 true, frame 2 true, frame 3 false, frame 4 true]

/-- Two buffers that agree on the delta-unit bit (clear in both) and differ in
address, in other flags and in payload. -/
def c2_first : GstBuffer :=
  { addr := 4096, flags := GST_BUFFER_FLAG_DISCONT + GST_BUFFER_FLAG_CORRUPTED, data := [1, 2, 3] }

/-- The second buffer of the pair. -/
def c2_second : GstBuffer :=
  { addr := 8192, flags := 0, data := [] }

/-- A world with an empty trace in which the counter holds `c`. -/
def World.at_count {σ : Type} (c : Nat) (s : σ) : World σ :=
  { chain_called := c, stdout := [], pushed := [], downstream := s }

/-- The frames a filter forwards: the buffers pushed on its source pad while
the frames are delivered to it, starting from `w`. -/
def forwarded {σ : Type} (filter : GstFrameFilter σ) (frames : List GstBuffer)
    (w : World σ) : List GstBuffer :=
  pushed_on filter.srcpad.id (deliver (gst_frame_filter_chain filter) frames w).2.pushed

/-- A buffer whose flags word is zero: it carries no delta-unit tag. -/
def untagged : GstBuffer :=
  { addr := 0, flags := 0, data := [] }

/-! ## Part 2: `src/c/mp4-h264-key.c` -/

namespace Mp4H264Key

/-- The enum `GstPadLinkReturn` of `gstpad.h`. -/
inductive GstPadLinkReturn where
  | OK | WRONG_HIERARCHY | WAS_LINKED | WRONG_DIRECTION | NOFORMAT | NOSCHED | REFUSED
  deriving DecidableEq

/-- The integer value of each `GstPadLinkReturn`. -/
def GstPadLinkReturn.toInt : GstPadLinkReturn → Int
  | .OK => 0
  | .WRONG_HIERARCHY => -1
  | .WAS_LINKED => -2
  | .WRONG_DIRECTION => -3
  | .NOFORMAT => -4
  | .NOSCHED => -5
  | .REFUSED => -6

/-- The macro `GST_PAD_LINK_FAILED (ret)`, which is `((ret) < GST_PAD_LINK_OK)`. -/
def GST_PAD_LINK_FAILED (ret : GstPadLinkReturn) : Bool :=
  decide (ret.toInt < GstPadLinkReturn.OK.toInt)

/-- The enum `GstStateChangeReturn` of `gstelement.h`. -/
inductive GstStateChangeReturn where
  | FAILURE | SUCCESS | ASYNC | NO_PREROLL
  deriving DecidableEq

/-- The states `main` asks the pipeline to enter. -/
inductive GstState where
  | NULL | READY | PAUSED | PLAYING
  deriving DecidableEq

/-- The message types the bus loop switches on; `OTHER` is the `default:` label. -/
inductive GstMessageType where
  | ERROR | EOS | STATE_CHANGED | OTHER
  deriving DecidableEq

/-- A bus message: its type and whether `GST_MESSAGE_SRC (msg)` is the pipeline. -/
structure GstMessage where
  type : GstMessageType
  from_pipeline : Bool
  deriving DecidableEq

/-- A pad announced by the demuxer through the `pad-added` signal: its
identity, what `gst_pad_get_current_caps` returns for it (`none` for `NULL`,
otherwise the names of the structures of the caps), and what `gst_pad_link`
answers when asked to link it to a parser sink pad that is still free. -/
structure NewPad where
  id : Nat
  caps : Option (List String)
  link_result : GstPadLinkReturn
  deriving DecidableEq

/-- The lines the program prints with `g_print` and `g_printerr`. -/
inductive Output where
  | received_new_pad (pad : Nat)
  | already_linked
  | link_failed
  | link_succeeded
  | no_input_file
  | not_all_created
  | could_not_link
  | unable_to_play
  | error_received
  | end_of_stream
  | pipeline_state_changed
  | unexpected_message
  deriving DecidableEq

/-- What the player does to the framework.

* `parser_sink_peer`: the pad the sink pad of `data->parser` is linked to, if any;
* `link_calls`: the calls of `gst_pad_link (new_pad, sink_pad)`, oldest first,
  with the pad and the answer;
* `state_calls`: the calls of `gst_element_set_state (data.pipeline, _)`;
* `out`: the lines printed. -/
structure App where
  parser_sink_peer : Option Nat
  link_calls : List (Nat × GstPadLinkReturn)
  state_calls : List GstState
  out : List Output
  deriving DecidableEq

/-- The application before `main` has done anything. -/
def App.init : App :=
  { parser_sink_peer := none, link_calls := [], state_calls := [], out := [] }

/-- The pads on which `gst_pad_link` succeeded, oldest first. -/
def App.linked_pads (app : App) : List Nat :=
  (app.link_calls.filter (fun c => c.2 == GstPadLinkReturn.OK)).map (fun c => c.1)

/-- The GLib function `g_str_has_prefix (str, prefix)`; with `str == NULL` its
`g_return_val_if_fail` guard returns `FALSE`. -/
def g_str_has_prefix (str : Option String) (pfx : String) : Bool :=
  match str with
  | none => false
  | some s => pfx.toList.isPrefixOf s.toList

/-- The calls `gst_structure_get_name (gst_caps_get_structure (caps, index))`:
`NULL` caps or an index out of range give `NULL`. -/
def gst_caps_get_structure_name (caps : Option (List String)) (index : Nat) : Option String :=
  match caps with
  | none => none
  | some names => names.get? index

/-- The framework call `gst_pad_is_linked (sink_pad)` on the parser sink pad. -/
def gst_pad_is_linked (app : App) : Bool :=
  app.parser_sink_peer.isSome

/-- The framework call `gst_pad_link (new_pad, sink_pad)` on the parser sink
pad: a sink pad that has a peer answers `WAS_LINKED`, a free one gives the
answer of the new pad, and the link exists afterwards when the answer is `OK`. -/
def gst_pad_link (new_pad : NewPad) (app : App) : GstPadLinkReturn × App :=
  let ret := if app.parser_sink_peer.isSome then GstPadLinkReturn.WAS_LINKED
    else new_pad.link_result
  (ret, { app with
    link_calls := app.link_calls ++ [(new_pad.id, ret)],
    parser_sink_peer := if ret = GstPadLinkReturn.OK then some new_pad.id
      else app.parser_sink_peer })

/-- The signal handler of `src/c/mp4-h264-key.c`, lines 37-78. -/
def pad_added_handler (new_pad : NewPad) (app : App) : App :=
  let app1 : App := { app with out := app.out ++ [Output.received_new_pad new_pad.id] }
  -- Check the new pad's type
  let new_pad_caps := new_pad.caps
  let new_pad_type := gst_caps_get_structure_name new_pad_caps 0
  if ( g_str_has_prefix new_pad_type "video/x-h264") = false then
    app1
  -- If our converter is already linked, we have nothing to do here
  else if gst_pad_is_linked app1 then
    { app1 with out := app1.out ++ [Output.already_linked] }
  else
    -- Attempt the link
    let r := gst_pad_link new_pad app1
    if GST_PAD_LINK_FAILED r.1 then
      { r.2 with out := r.2.out ++ [Output.link_failed] }
    else
      { r.2 with out := r.2.out ++ [Output.link_succeeded] }

/-- The demuxer announcing pads one after the other. -/
def pad_added_signals : List NewPad → App → App
  | [], app => app
  | p :: rest, app => pad_added_signals rest (pad_added_handler p app)

/-- What happens while `main` waits in `gst_bus_timed_pop_filtered`: the
demuxer emits `pad-added`, or the call returns (`none` for a `NULL` message). -/
inductive Event where
  | pad_added (new_pad : NewPad)
  | bus (msg : Option GstMessage)
  deriving DecidableEq

/-- What `main` observes of its environment: `argc` after `gst_init`, whether
each `gst_element_factory_make` and `gst_pipeline_new` gave a non-`NULL`
object, the two answers of `gst_element_link_many`, the answer of
`gst_element_set_state (data.pipeline, GST_STATE_PLAYING)`, and the events
that follow. -/
structure Env where
  argc : Int
  source : Bool
  demuxer : Bool
  parser : Bool
  filter : Bool
  decoder : Bool
  convert : Bool
  auto_sink : Bool
  pipeline : Bool
  link_source_demuxer : Bool
  link_parser_to_sink : Bool
  playing : GstStateChangeReturn
  events : List Event
  deriving DecidableEq

/-- The body of `switch (GST_MESSAGE_TYPE (msg))`, lines 161-187: the new
value of `terminate` and the effect on the application. -/
def handle_message (msg : GstMessage) (app : App) : Bool × App :=
  match msg.type with
  | .ERROR => (true, { app with out := app.out ++ [Output.error_received] })
  | .EOS => (true, { app with out := app.out ++ [Output.end_of_stream] })
  | .STATE_CHANGED =>
    if msg.from_pipeline then
      (false, { app with out := app.out ++ [Output.pipeline_state_changed] })
    else (false, app)
  | .OTHER => (false, { app with out := app.out ++ [Output.unexpected_message] })

/-- The loop `do { ... } while (!terminate)`, lines 152-190.  `none` means the
loop never ends: the events are used up and `gst_bus_timed_pop_filtered`,
called with `GST_CLOCK_TIME_NONE`, does not return again. -/
def bus_loop : List Event → App → Option App
  | [], _ => none
  | Event.pad_added new_pad :: rest, app => bus_loop rest (pad_added_handler new_pad app)
  | Event.bus none :: rest, app => bus_loop rest app
  | Event.bus (some msg) :: rest, app =>
    let r := handle_message msg app
    if r.1 then some r.2 else bus_loop rest r.2

/-- The function `main` of `src/c/mp4-h264-key.c`, lines 80-197: the value
returned (`none` when it never returns) and the effects. -/
def main (env : Env) : Option Int × App :=
  let app := App.init
  if env.argc < 2 then
    (some (-1), { app with out := app.out ++ [Output.no_input_file] })
  else if !env.pipeline || !env.source || !env.demuxer || !env.parser || !env.filter ||
      !env.decoder || !env.convert || !env.auto_sink then
    (some (-1), { app with out := app.out ++ [Output.not_all_created] })
  else if !env.link_source_demuxer then
    (some (-1), { app with out := app.out ++ [Output.could_not_link] })
  else if !env.link_parser_to_sink then
    (some (-1), { app with out := app.out ++ [Output.could_not_link] })
  else
    -- Start playing
    let app1 : App := { app with state_calls := app.state_calls ++ [GstState.PLAYING] }
    if env.playing = GstStateChangeReturn.FAILURE then
      (some (-1), { app1 with out := app1.out ++ [Output.unable_to_play] })
    else
      -- Listen to the bus
      match bus_loop env.events app1 with
      | none => (none, app1)
      | some app2 =>
        -- Free resources
        (some 0, { app2 with state_calls := app2.state_calls ++ [GstState.NULL] })

/-- A pad carrying H.264 video that `gst_pad_link` answers with `ret`. -/
def h264_pad (id : Nat) (ret : GstPadLinkReturn) : NewPad :=
  { id := id, caps := some ["video/x-h264"], link_result := ret }

/-- A pad carrying AAC audio. -/
def audio_pad (id : Nat) : NewPad :=
  { id := id, caps := some ["audio/mpeg"], link_result := GstPadLinkReturn.OK }

/-- An environment in which every step of the setup succeeds. -/
def env_ok (events : List Event) : Env :=
  { argc := 2, source := true, demuxer := true, parser := true, filter := true,
    decoder := true, convert := true, auto_sink := true, pipeline := true,
    link_source_demuxer := true, link_parser_to_sink := true,
    playing := GstStateChangeReturn.ASYNC, events := events }

/-- A bus message of the given type posted by the pipeline. -/
def message (t : GstMessageType) : Event :=
  Event.bus (some { type := t, from_pipeline := true })

/-- The events that end the bus loop: an `ERROR` or an `EOS` message. -/
def Event.terminal : Event → Bool
  | Event.bus (some msg) => msg.type == GstMessageType.ERROR || msg.type == GstMessageType.EOS
  | _ => false

/-- Every step of the setup of `main` succeeds: the input file is given, all
elements and the pipeline exist, both `gst_element_link_many` calls succeed
and so does the change to the playing state. -/
def setup_succeeds (env : Env) : Prop :=
  2 ≤ env.argc ∧ env.pipeline = true ∧ env.source = true ∧ env.demuxer = true
    ∧ env.parser = true ∧ env.filter = true ∧ env.decoder = true ∧ env.convert = true
    ∧ env.auto_sink = true ∧ env.link_source_demuxer = true
    ∧ env.link_parser_to_sink = true ∧ env.playing ≠ GstStateChangeReturn.FAILURE

/-- The condition under which the handler attempts a link, in the words of the
claim: the first structure of the caps has a name starting with
`video/x-h264`, and the parser sink pad has no peer yet. -/
def wants_link (new_pad : NewPad) (app : App) : Prop :=
  (∃ name rest, new_pad.caps = some (name :: rest) ∧ "video/x-h264".toList <+: name.toList)
    ∧ app.parser_sink_peer = none

/-- The parser sink pad and the record of successful links agree: either no
link was ever made and the pad is free, or exactly one was made and the pad is
linked to that peer. -/
def linkage_consistent (app : App) : Prop :=
  (app.parser_sink_peer = none ∧ app.linked_pads = [])
    ∨ ∃ p, app.parser_sink_peer = some p ∧ app.linked_pads = [p]

/-- A run in which the setup succeeds, the H.264 pad is linked, and a decoding
error is then posted on the bus. -/
def error_run : Env :=
  env_ok [message GstMessageType.STATE_CHANGED,
    Event.pad_added (h264_pad 1 GstPadLinkReturn.OK), message GstMessageType.ERROR]

/-- A run in which the setup succeeds, the link of the H.264 pad to the parser
is refused in `pad_added_handler`, and the resulting error is posted on the bus. -/
def refused_run : Env :=
  env_ok [Event.pad_added (h264_pad 1 GstPadLinkReturn.REFUSED), message GstMessageType.ERROR]

/-- A run without the input-file argument. -/
def no_file_run : Env :=
  { env_ok [] with argc := 1 }

/-- A run that plays to the end of the stream. -/
def eos_run : Env :=
  env_ok [message GstMessageType.STATE_CHANGED,
    Event.pad_added (audio_pad 0), Event.pad_added (h264_pad 1 GstPadLinkReturn.OK),
    Event.bus none, message GstMessageType.EOS]

end Mp4H264Key

open Mp4H264Key

/-! ## Part 3: the chain function, one call -/

/-- The modulus of `guint` arithmetic as a numeral. -/
theorem G_MAXUINT_SUCC_eq : G_MAXUINT_SUCC = 4294967296 := by
  norm_num [G_MAXUINT_SUCC]

/-- One call of the chain function of a filter whose peer is external, on a
buffer without the delta-unit flag. -/
theorem chain_key {σ : Type} (down : GstBuffer → σ → GstFlowReturn × σ) (pad : Nat)
    (buf : GstBuffer) (w : World σ)
    (h : GST_BUFFER_FLAG_IS_SET buf GST_BUFFER_FLAG_DELTA_UNIT = false) :
    gst_frame_filter_chain (filter_to pad down) buf w =
      ((down buf w.downstream).1,
        { chain_called := (w.chain_called + 1) % G_MAXUINT_SUCC,
          stdout := w.stdout ++ [(w.chain_called + 1) % G_MAXUINT_SUCC],
          pushed := w.pushed ++ [(pad, buf)],
          downstream := (down buf w.downstream).2 }) := by
  simp [gst_frame_filter_chain, filter_to, gst_pad_push, external_chain, h]

/-- One call of the chain function on a buffer with the delta-unit flag. -/
theorem chain_delta {σ : Type} (filter : GstFrameFilter σ) (buf : GstBuffer) (w : World σ)
    (h : GST_BUFFER_FLAG_IS_SET buf GST_BUFFER_FLAG_DELTA_UNIT = true) :
    gst_frame_filter_chain filter buf w =
      (GST_FLOW_OK, { w with chain_called := (w.chain_called + 1) % G_MAXUINT_SUCC }) := by
  simp [gst_frame_filter_chain, h]

/-- The flag test of the chain function reads bit 13 of the flags word. -/
theorem delta_unit_is_bit_13 (buf : GstBuffer) :
    GST_BUFFER_FLAG_IS_SET buf GST_BUFFER_FLAG_DELTA_UNIT = buf.flags.testBit 13 := by
  have hc : GST_BUFFER_FLAG_DELTA_UNIT = 2 ^ 13 := by decide
  unfold GST_BUFFER_FLAG_IS_SET
  rw [hc, Nat.and_two_pow]
  cases buf.flags.testBit 13 <;> simp

/-! ## Part 4: a sequence of frames -/

/-- The pushes made while a sequence is delivered. -/
theorem deliver_pushed {σ : Type} (down : GstBuffer → σ → GstFlowReturn × σ) (pad : Nat)
    (frames : List GstBuffer) (w : World σ) :
    (deliver (gst_frame_filter_chain (filter_to pad down)) frames w).2.pushed =
      w.pushed ++ (frames.filter
        (fun b => ! GST_BUFFER_FLAG_IS_SET b GST_BUFFER_FLAG_DELTA_UNIT)).map
          (fun b => (pad, b)) := by
  induction frames generalizing w with
  | nil => simp [deliver]
  | cons b rest ih =>
    cases h : GST_BUFFER_FLAG_IS_SET b GST_BUFFER_FLAG_DELTA_UNIT with
    | false => simp [deliver, ih, chain_key down pad b w h, h]
    | true => simp [deliver, ih, chain_delta (filter_to pad down) b w h, h]

/-- The counter after a sequence of any chain calls of frame filters with an
external peer: one more per frame, modulo `2 ^ 32`. -/
theorem deliver_counter {σ : Type} (down : GstBuffer → σ → GstFlowReturn × σ) (pad : Nat)
    (frames : List GstBuffer) (w : World σ) :
    (deliver (gst_frame_filter_chain (filter_to pad down)) frames w).2.chain_called
      % G_MAXUINT_SUCC = (w.chain_called + frames.length) % G_MAXUINT_SUCC := by
  induction frames generalizing w with
  | nil => simp [deliver]
  | cons b rest ih =>
    cases h : GST_BUFFER_FLAG_IS_SET b GST_BUFFER_FLAG_DELTA_UNIT with
    | false =>
      simp only [deliver, chain_key down pad b w h, List.length_cons]
      rw [ih]
      simp only [G_MAXUINT_SUCC_eq]
      omega
    | true =>
      simp only [deliver, chain_delta (filter_to pad down) b w h, List.length_cons]
      rw [ih]
      simp only [G_MAXUINT_SUCC_eq]
      omega

/-- The counter stays a `guint`. -/
theorem deliver_counter_lt {σ : Type} (down : GstBuffer → σ → GstFlowReturn × σ) (pad : Nat)
    (frames : List GstBuffer) (w : World σ) (hw : w.chain_called < G_MAXUINT_SUCC) :
    (deliver (gst_frame_filter_chain (filter_to pad down)) frames w).2.chain_called
      < G_MAXUINT_SUCC := by
  induction frames generalizing w with
  | nil => simpa [deliver] using hw
  | cons b rest ih =>
    have hpos : 0 < G_MAXUINT_SUCC := by decide
    cases h : GST_BUFFER_FLAG_IS_SET b GST_BUFFER_FLAG_DELTA_UNIT with
    | false =>
      simp only [deliver, chain_key down pad b w h]
      exact ih _ (Nat.mod_lt _ hpos)
    | true =>
      simp only [deliver, chain_delta (filter_to pad down) b w h]
      exact ih _ (Nat.mod_lt _ hpos)

/-- The numbers printed while a sequence is delivered: for each frame without
the delta-unit flag, one more than its position, the positions being counted
from a value `k` congruent to the counter at the start. -/
theorem deliver_stdout {σ : Type} (down : GstBuffer → σ → GstFlowReturn × σ) (pad : Nat)
    (frames : List GstBuffer) (w : World σ) (k : Nat)
    (hk : w.chain_called % G_MAXUINT_SUCC = k % G_MAXUINT_SUCC) :
    (deliver (gst_frame_filter_chain (filter_to pad down)) frames w).2.stdout =
      w.stdout ++ ((frames.enumFrom k).filter
        (fun p => ! GST_BUFFER_FLAG_IS_SET p.2 GST_BUFFER_FLAG_DELTA_UNIT)).map
          (fun p => (p.1 + 1) % G_MAXUINT_SUCC) := by
  induction frames generalizing w k with
  | nil => simp [deliver]
  | cons b rest ih =>
    have hstep : (w.chain_called + 1) % G_MAXUINT_SUCC % G_MAXUINT_SUCC
        = (k + 1) % G_MAXUINT_SUCC := by
      rw [Nat.mod_mod, Nat.add_mod, hk, ← Nat.add_mod]
    have hval : (w.chain_called + 1) % G_MAXUINT_SUCC = (k + 1) % G_MAXUINT_SUCC := by
      rw [Nat.add_mod, hk, ← Nat.add_mod]
    cases h : GST_BUFFER_FLAG_IS_SET b GST_BUFFER_FLAG_DELTA_UNIT with
    | false =>
      simp only [deliver, chain_key down pad b w h, List.enumFrom_cons]
      rw [ih _ (k + 1) hstep]
      simp [h, hval]
    | true =>
      simp only [deliver, chain_delta (filter_to pad down) b w h, List.enumFrom_cons]
      rw [ih _ (k + 1) hstep]
      simp [h]

/-- Splitting the trace of one pad. -/
theorem pushed_on_append (pad : Nat) (t u : List (Nat × GstBuffer)) :
    pushed_on pad (t ++ u) = pushed_on pad t ++ pushed_on pad u := by
  simp [pushed_on]

/-- One call of the chain function of the first of two filters in series, on a
buffer without the delta-unit flag: both filters count, print and push. -/
theorem chain_series_key {σ : Type} (down : GstBuffer → σ → GstFlowReturn × σ)
    (pad1 pad2 : Nat) (buf : GstBuffer) (w : World σ)
    (h : GST_BUFFER_FLAG_IS_SET buf GST_BUFFER_FLAG_DELTA_UNIT = false) :
    gst_frame_filter_chain (filter_series pad1 pad2 down) buf w =
      ((down buf w.downstream).1,
        { chain_called := ((w.chain_called + 1) % G_MAXUINT_SUCC + 1) % G_MAXUINT_SUCC,
          stdout := w.stdout ++ [(w.chain_called + 1) % G_MAXUINT_SUCC,
            ((w.chain_called + 1) % G_MAXUINT_SUCC + 1) % G_MAXUINT_SUCC],
          pushed := w.pushed ++ [(pad1, buf), (pad2, buf)],
          downstream := (down buf w.downstream).2 }) := by
  have h2 := chain_key down pad2 buf
    { chain_called := (w.chain_called + 1) % G_MAXUINT_SUCC,
      stdout := w.stdout ++ [(w.chain_called + 1) % G_MAXUINT_SUCC],
      pushed := w.pushed ++ [(pad1, buf)],
      downstream := w.downstream } h
  unfold filter_series
  simp only [gst_frame_filter_chain, gst_pad_push, h] at h2 ⊢
  simpa using h2

/-- The pushes made while a sequence is delivered to two filters in series. -/
theorem deliver_series_pushed {σ : Type} (down : GstBuffer → σ → GstFlowReturn × σ)
    (pad1 pad2 : Nat) (frames : List GstBuffer) (w : World σ) :
    (deliver (gst_frame_filter_chain (filter_series pad1 pad2 down)) frames w).2.pushed =
      w.pushed ++ ((frames.filter
        (fun b => ! GST_BUFFER_FLAG_IS_SET b GST_BUFFER_FLAG_DELTA_UNIT)).map
          (fun b => [(pad1, b), (pad2, b)])).flatten := by
  induction frames generalizing w with
  | nil => simp [deliver]
  | cons b rest ih =>
    cases h : GST_BUFFER_FLAG_IS_SET b GST_BUFFER_FLAG_DELTA_UNIT with
    | false => simp [deliver, ih, chain_series_key down pad1 pad2 b w h, h]
    | true => simp [deliver, ih, chain_delta (filter_series pad1 pad2 down) b w h, h]

/-- What one pad sees of the pushes of two filters in series. -/
theorem pushed_on_series (pad pad1 pad2 : Nat) (bufs : List GstBuffer) :
    pushed_on pad ((bufs.map (fun b => [(pad1, b), (pad2, b)])).flatten) =
      (bufs.map (fun b => (if pad1 = pad then [b] else []) ++
        (if pad2 = pad then [b] else []))).flatten := by
  induction bufs with
  | nil => simp [pushed_on]
  | cons b rest ih =>
    simp only [List.map_cons, List.flatten_cons, pushed_on_append, ih]
    congr 1
    by_cases h1 : pad1 = pad <;> by_cases h2 : pad2 = pad <;> simp [pushed_on, h1, h2]

/-- Flattening singletons gives the list back. -/
theorem flatten_singletons (bufs : List GstBuffer) :
    (bufs.map (fun b => [b])).flatten = bufs := by
  induction bufs with
  | nil => rfl
  | cons b rest ih => simp [ih]

/-- Filtering a filtered list again changes nothing. -/
theorem filter_key_idem (frames : List GstBuffer) :
    (frames.filter (fun b => ! GST_BUFFER_FLAG_IS_SET b GST_BUFFER_FLAG_DELTA_UNIT)).filter
      (fun b => ! GST_BUFFER_FLAG_IS_SET b GST_BUFFER_FLAG_DELTA_UNIT) =
    frames.filter (fun b => ! GST_BUFFER_FLAG_IS_SET b GST_BUFFER_FLAG_DELTA_UNIT) := by
  simp [List.filter_filter]

/-! ## Part 5: the claims about `gst_frame_filter_chain` -/

/-- Claim C1: for every finite sequence of frames delivered in order to the
chain function, and whatever the downstream peer answers, the buffers handed
to `gst_pad_push` on the source pad are exactly the input frames without the
delta-unit flag, in the original order and unmodified.  Frames tagged
`[false, true, true, false, true]` forward the frames at indices 0 and 3, and
a sequence of delta units only forwards nothing. -/
theorem C1_forwards_exactly_the_key_frames {σ : Type}
    (down : GstBuffer → σ → GstFlowReturn × σ) (pad : Nat) (frames : List GstBuffer)
    (w : World σ) :
    (deliver (gst_frame_filter_chain (filter_to pad down)) frames w).2.pushed =
        w.pushed ++ (frames.filter
          (fun b => ! GST_BUFFER_FLAG_IS_SET b GST_BUFFER_FLAG_DELTA_UNIT)).map
            (fun b => (pad, b))
    ∧ (∀ b0 b1 b2 b3 b4 : GstBuffer,
        [b0, b1, b2, b3, b4].map
            (fun b => GST_BUFFER_FLAG_IS_SET b GST_BUFFER_FLAG_DELTA_UNIT) =
          [false, true, true, false, true] →
        (deliver (gst_frame_filter_chain (filter_to pad down)) [b0, b1, b2, b3, b4]
          w).2.pushed = w.pushed ++ [(pad, b0), (pad, b3)])
    ∧ ((∀ b ∈ frames, GST_BUFFER_FLAG_IS_SET b GST_BUFFER_FLAG_DELTA_UNIT = true) →
        (deliver (gst_frame_filter_chain (filter_to pad down)) frames w).2.pushed =
          w.pushed) := by
  refine ⟨deliver_pushed down pad frames w, ?_, ?_⟩
  · intro b0 b1 b2 b3 b4 htags
    simp only [List.map_cons, List.map_nil, List.cons.injEq, and_true] at htags
    obtain ⟨h0, h1, h2, h3, h4⟩ := htags
    rw [deliver_pushed]
    simp [List.filter_cons, h0, h1, h2, h3, h4]
  · intro hall
    rw [deliver_pushed]
    have hnone : frames.filter
        (fun b => ! GST_BUFFER_FLAG_IS_SET b GST_BUFFER_FLAG_DELTA_UNIT) = [] := by
      rw [List.filter_eq_nil_iff]
      intro b hb
      simp [hall b hb]
    simp [hnone]

/-- Witness of C1: the scenario and an all-delta sequence, with a downstream
peer that answers every push with `GST_FLOW_ERROR`. -/
theorem C1_forwards_exactly_the_key_frames_witness :
    (deliver (gst_frame_filter_chain (filter_to 7 (answering GST_FLOW_ERROR))) scenario
        (World.init 0)).2.pushed = [(7, frame 0 false), (7, frame 3 false)]
    ∧ (deliver (gst_frame_filter_chain (filter_to 7 (answering GST_FLOW_ERROR)))
        [frame 0 true, frame 1 true] (World.init 0)).2.pushed = [] :=
  ⟨(C1_forwards_exactly_the_key_frames (answering GST_FLOW_ERROR) 7 scenario
      (World.init 0)).2.1 (frame 0 false) (frame 1 true) (frame 2 true) (frame 3 false)
      (frame 4 true) (by decide),
   (C1_forwards_exactly_the_key_frames (answering GST_FLOW_ERROR) 7
      [frame 0 true, frame 1 true] (World.init 0)).2.2 (by decide)⟩

/-- Claim C2: the decision of the chain function depends on the delta-unit bit
of the buffer alone.  Two calls whose buffers agree on that bit take the same
decision (forward when it is clear, drop when it is set), whatever the other
flag bits, the payloads, the counters, the traces left by earlier calls and
the downstream peers of the two calls are. -/
theorem C2_decision_reads_only_the_delta_bit {σ τ : Type}
    (down1 : GstBuffer → σ → GstFlowReturn × σ) (down2 : GstBuffer → τ → GstFlowReturn × τ)
    (pad1 pad2 : Nat) (b1 b2 : GstBuffer) (w1 : World σ) (w2 : World τ)
    (hagree : b1.flags &&& GST_BUFFER_FLAG_DELTA_UNIT =
      b2.flags &&& GST_BUFFER_FLAG_DELTA_UNIT) :
    (b1.flags &&& GST_BUFFER_FLAG_DELTA_UNIT = 0
      ∧ (gst_frame_filter_chain (filter_to pad1 down1) b1 w1).2.pushed =
          w1.pushed ++ [(pad1, b1)]
      ∧ (gst_frame_filter_chain (filter_to pad2 down2) b2 w2).2.pushed =
          w2.pushed ++ [(pad2, b2)])
    ∨ (b1.flags &&& GST_BUFFER_FLAG_DELTA_UNIT ≠ 0
      ∧ (gst_frame_filter_chain (filter_to pad1 down1) b1 w1).2.pushed = w1.pushed
      ∧ (gst_frame_filter_chain (filter_to pad2 down2) b2 w2).2.pushed = w2.pushed) := by
  by_cases hbit : b1.flags &&& GST_BUFFER_FLAG_DELTA_UNIT = 0
  · left
    have h1 : GST_BUFFER_FLAG_IS_SET b1 GST_BUFFER_FLAG_DELTA_UNIT = false := by
      simp [GST_BUFFER_FLAG_IS_SET, hbit]
    have h2 : GST_BUFFER_FLAG_IS_SET b2 GST_BUFFER_FLAG_DELTA_UNIT = false := by
      simp [GST_BUFFER_FLAG_IS_SET, ← hagree, hbit]
    exact ⟨hbit, by rw [chain_key down1 pad1 b1 w1 h1], by rw [chain_key down2 pad2 b2 w2 h2]⟩
  · right
    have h1 : GST_BUFFER_FLAG_IS_SET b1 GST_BUFFER_FLAG_DELTA_UNIT = true := by
      simp [GST_BUFFER_FLAG_IS_SET, hbit]
    have h2 : GST_BUFFER_FLAG_IS_SET b2 GST_BUFFER_FLAG_DELTA_UNIT = true := by
      simp [GST_BUFFER_FLAG_IS_SET, ← hagree, hbit]
    exact ⟨hbit, by rw [chain_delta _ b1 w1 h1], by rw [chain_delta _ b2 w2 h2]⟩

/-- Witness of C2: two calls on different buffers with the bit clear, at
counters 41 and `2 ^ 32 - 1`, after different histories and with downstream
peers that answer differently, both forward. -/
theorem C2_decision_reads_only_the_delta_bit_witness :
    c2_first.flags &&& GST_BUFFER_FLAG_DELTA_UNIT =
        c2_second.flags &&& GST_BUFFER_FLAG_DELTA_UNIT
    ∧ ((c2_first.flags &&& GST_BUFFER_FLAG_DELTA_UNIT = 0
        ∧ (gst_frame_filter_chain (filter_to 1 (answering GST_FLOW_OK)) c2_first
            { chain_called := 41, stdout := [3], pushed := [(1, frame 2 false)],
              downstream := 1 }).2.pushed =
            [(1, frame 2 false)] ++ [(1, c2_first)]
        ∧ (gst_frame_filter_chain (filter_to 2 (answering GST_FLOW_ERROR)) c2_second
            { chain_called := 4294967295, stdout := [], pushed := [],
              downstream := 0 }).2.pushed = [] ++ [(2, c2_second)])
      ∨ (c2_first.flags &&& GST_BUFFER_FLAG_DELTA_UNIT ≠ 0
        ∧ (gst_frame_filter_chain (filter_to 1 (answering GST_FLOW_OK)) c2_first
            { chain_called := 41, stdout := [3], pushed := [(1, frame 2 false)],
              downstream := 1 }).2.pushed = [(1, frame 2 false)]
        ∧ (gst_frame_filter_chain (filter_to 2 (answering GST_FLOW_ERROR)) c2_second
            { chain_called := 4294967295, stdout := [], pushed := [],
              downstream := 0 }).2.pushed = [])) :=
  ⟨by decide,
   C2_decision_reads_only_the_delta_bit (answering GST_FLOW_OK) (answering GST_FLOW_ERROR)
     1 2 c2_first c2_second
     { chain_called := 41, stdout := [3], pushed := [(1, frame 2 false)], downstream := 1 }
     { chain_called := 4294967295, stdout := [], pushed := [], downstream := 0 }
     (by decide)⟩

/-- Claim C3: for a forwarded frame (delta-unit flag clear) the chain function
calls the downstream push exactly once and returns the status of that push,
whatever it is; for a dropped frame (flag set) it makes no downstream call and
returns `GST_FLOW_OK`. -/
theorem C3_returns_the_status_of_the_push {σ : Type}
    (down : GstBuffer → σ → GstFlowReturn × σ) (pad : Nat) (buf : GstBuffer) (w : World σ) :
    (GST_BUFFER_FLAG_IS_SET buf GST_BUFFER_FLAG_DELTA_UNIT = false →
      (gst_frame_filter_chain (filter_to pad down) buf w).1 = (down buf w.downstream).1
      ∧ (gst_frame_filter_chain (filter_to pad down) buf w).2.pushed =
          w.pushed ++ [(pad, buf)]
      ∧ (gst_frame_filter_chain (filter_to pad down) buf w).2.downstream =
          (down buf w.downstream).2)
    ∧ (GST_BUFFER_FLAG_IS_SET buf GST_BUFFER_FLAG_DELTA_UNIT = true →
      (gst_frame_filter_chain (filter_to pad down) buf w).1 = GST_FLOW_OK
      ∧ (gst_frame_filter_chain (filter_to pad down) buf w).2.pushed = w.pushed
      ∧ (gst_frame_filter_chain (filter_to pad down) buf w).2.downstream = w.downstream) := by
  constructor
  · intro h
    rw [chain_key down pad buf w h]
    exact ⟨rfl, rfl, rfl⟩
  · intro h
    rw [chain_delta (filter_to pad down) buf w h]
    exact ⟨rfl, rfl, rfl⟩

/-- Witness of C3: a key frame pushed to a peer that answers `GST_FLOW_ERROR`
and counts its calls, and a delta frame given to the same filter. -/
theorem C3_returns_the_status_of_the_push_witness :
    ((gst_frame_filter_chain (filter_to 7 (answering GST_FLOW_ERROR)) (frame 0 false)
        (World.init 0)).1 = (answering GST_FLOW_ERROR (frame 0 false) 0).1
      ∧ (gst_frame_filter_chain (filter_to 7 (answering GST_FLOW_ERROR)) (frame 0 false)
        (World.init 0)).2.pushed = [] ++ [(7, frame 0 false)]
      ∧ (gst_frame_filter_chain (filter_to 7 (answering GST_FLOW_ERROR)) (frame 0 false)
        (World.init 0)).2.downstream = (answering GST_FLOW_ERROR (frame 0 false) 0).2)
    ∧ ((gst_frame_filter_chain (filter_to 7 (answering GST_FLOW_ERROR)) (frame 1 true)
        (World.init 0)).1 = GST_FLOW_OK
      ∧ (gst_frame_filter_chain (filter_to 7 (answering GST_FLOW_ERROR)) (frame 1 true)
        (World.init 0)).2.pushed = []
      ∧ (gst_frame_filter_chain (filter_to 7 (answering GST_FLOW_ERROR)) (frame 1 true)
        (World.init 0)).2.downstream = 0) :=
  ⟨(C3_returns_the_status_of_the_push (answering GST_FLOW_ERROR) 7 (frame 0 false)
      (World.init 0)).1 (by decide),
   (C3_returns_the_status_of_the_push (answering GST_FLOW_ERROR) 7 (frame 1 true)
      (World.init 0)).2 (by decide)⟩

/-- The counter after a delivery that starts at program start. -/
theorem deliver_counter_init {σ : Type} (down : GstBuffer → σ → GstFlowReturn × σ) (pad : Nat)
    (frames : List GstBuffer) (s : σ) :
    (deliver (gst_frame_filter_chain (filter_to pad down)) frames (World.init s)).2.chain_called
      = frames.length % G_MAXUINT_SUCC := by
  have hmod := deliver_counter down pad frames (World.init s)
  have hlt := deliver_counter_lt down pad frames (World.init s)
    (by rw [G_MAXUINT_SUCC_eq]; exact Nat.succ_pos _)
  rw [Nat.mod_eq_of_lt hlt] at hmod
  rw [hmod]
  simp [World.init]

/-- The call made when the counter holds `2 ^ 32 - 1` wraps it to 0. -/
theorem chain_wraps {σ : Type} (down : GstBuffer → σ → GstFlowReturn × σ) (pad : Nat)
    (buf : GstBuffer) (w : World σ)
    (hw : w.chain_called = (G_MAXUINT_SUCC - 1) % G_MAXUINT_SUCC) :
    (gst_frame_filter_chain (filter_to pad down) buf w).2.chain_called < w.chain_called := by
  have hval : (gst_frame_filter_chain (filter_to pad down) buf w).2.chain_called
      = (w.chain_called + 1) % G_MAXUINT_SUCC := by
    cases h : GST_BUFFER_FLAG_IS_SET buf GST_BUFFER_FLAG_DELTA_UNIT with
    | false => rw [chain_key down pad buf w h]
    | true => rw [chain_delta (filter_to pad down) buf w h]
  rw [hval, hw]
  simp only [G_MAXUINT_SUCC_eq]
  omega

/-- Counterexample to C4 as stated: after `2 ^ 32` calls the counter is 0 and
not `2 ^ 32`, and the call made when the counter is `2 ^ 32 - 1` (reached
after `2 ^ 32 - 1` calls) decreases it. -/
theorem C4_counter_wraps_counterexample :
    (deliver (gst_frame_filter_chain (filter_to 7 (answering GST_FLOW_OK)))
        (List.replicate G_MAXUINT_SUCC (frame 0 false)) (World.init 0)).2.chain_called = 0
    ∧ (deliver (gst_frame_filter_chain (filter_to 7 (answering GST_FLOW_OK)))
        (List.replicate G_MAXUINT_SUCC (frame 0 false)) (World.init 0)).2.chain_called
      ≠ (List.replicate G_MAXUINT_SUCC (frame 0 false)).length
    ∧ (gst_frame_filter_chain (filter_to 7 (answering GST_FLOW_OK)) (frame 0 false)
        (deliver (gst_frame_filter_chain (filter_to 7 (answering GST_FLOW_OK)))
          (List.replicate (G_MAXUINT_SUCC - 1) (frame 0 false))
          (World.init 0)).2).2.chain_called
      < (deliver (gst_frame_filter_chain (filter_to 7 (answering GST_FLOW_OK)))
          (List.replicate (G_MAXUINT_SUCC - 1) (frame 0 false))
          (World.init 0)).2.chain_called := by
  have hfull := deliver_counter_init (answering GST_FLOW_OK) 7
    (List.replicate G_MAXUINT_SUCC (frame 0 false)) 0
  have hlast := deliver_counter_init (answering GST_FLOW_OK) 7
    (List.replicate (G_MAXUINT_SUCC - 1) (frame 0 false)) 0
  rw [List.length_replicate] at hfull hlast
  rw [Nat.mod_self] at hfull
  refine ⟨hfull, ?_, ?_⟩
  · rw [hfull, List.length_replicate, G_MAXUINT_SUCC_eq]
    omega
  · exact chain_wraps _ _ _ _ hlast

/-- Claim C4 (amended): starting from 0, after `N` calls of the chain function
the counter `chain_called` equals `N` modulo `2 ^ 32`, hence `N` itself for
every `N < 2 ^ 32`, for every mix of forwarded and dropped frames and of
downstream statuses; with no calls it is 0; and every call made while the
counter is below `2 ^ 32 - 1` increases it by exactly one. -/
theorem C4_counter_counts_calls_modulo {σ : Type}
    (down : GstBuffer → σ → GstFlowReturn × σ) (pad : Nat) (frames : List GstBuffer) (s : σ) :
    (deliver (gst_frame_filter_chain (filter_to pad down)) frames (World.init s)).2.chain_called
        = frames.length % G_MAXUINT_SUCC
    ∧ (frames.length < G_MAXUINT_SUCC →
        (deliver (gst_frame_filter_chain (filter_to pad down)) frames
          (World.init s)).2.chain_called = frames.length)
    ∧ (deliver (gst_frame_filter_chain (filter_to pad down)) [] (World.init s)).2.chain_called
        = 0
    ∧ (∀ (buf : GstBuffer) (w : World σ), w.chain_called + 1 < G_MAXUINT_SUCC →
        (gst_frame_filter_chain (filter_to pad down) buf w).2.chain_called
          = w.chain_called + 1) := by
  refine ⟨deliver_counter_init down pad frames s, ?_, rfl, ?_⟩
  · intro hlen
    rw [deliver_counter_init, Nat.mod_eq_of_lt hlen]
  · intro buf w hw
    cases h : GST_BUFFER_FLAG_IS_SET buf GST_BUFFER_FLAG_DELTA_UNIT with
    | false => rw [chain_key down pad buf w h]; exact Nat.mod_eq_of_lt hw
    | true => rw [chain_delta (filter_to pad down) buf w h]; exact Nat.mod_eq_of_lt hw

/-- Witness of C4 (amended): the scenario leaves the counter at 5, and a call
at counter 41 leaves it at 42. -/
theorem C4_counter_counts_calls_modulo_witness :
    (deliver (gst_frame_filter_chain (filter_to 7 (answering GST_FLOW_ERROR))) scenario
        (World.init 0)).2.chain_called = scenario.length
    ∧ (gst_frame_filter_chain (filter_to 7 (answering GST_FLOW_ERROR)) (frame 9 true)
        { chain_called := 41, stdout := [], pushed := [], downstream := 0 }).2.chain_called
      = 41 + 1 :=
  ⟨(C4_counter_counts_calls_modulo (answering GST_FLOW_ERROR) 7 scenario 0).2.1 (by decide),
   (C4_counter_counts_calls_modulo (answering GST_FLOW_ERROR) 7 scenario 0).2.2.2
     (frame 9 true) { chain_called := 41, stdout := [], pushed := [], downstream := 0 }
     (by decide)⟩

/-- What a single filter forwards from a world with an empty trace. -/
theorem forwarded_single {σ : Type} (down : GstBuffer → σ → GstFlowReturn × σ) (pad c : Nat)
    (s : σ) (frames : List GstBuffer) :
    forwarded (filter_to pad down) frames (World.at_count c s) =
      frames.filter (fun b => ! GST_BUFFER_FLAG_IS_SET b GST_BUFFER_FLAG_DELTA_UNIT) := by
  unfold forwarded
  rw [deliver_pushed]
  simp [pushed_on, filter_to, World.at_count, List.filter_map, Function.comp_def]

/-- Claim C5: idempotence.  Feeding the frames forwarded by one frame filter
into a second frame filter forwards exactly the frames a single filter
forwards, so the second pass drops nothing: both when the output sequence of
the first is delivered to the second, whatever the counter and the downstream
peers are, and when the two are linked in one pipeline and share the static
counter. -/
theorem C5_second_filter_drops_nothing {σ τ : Type}
    (down1 : GstBuffer → σ → GstFlowReturn × σ) (down2 : GstBuffer → τ → GstFlowReturn × τ)
    (pad1 pad2 c1 c2 : Nat) (s1 : σ) (s2 : τ) (frames : List GstBuffer)
    (hpads : pad1 ≠ pad2) :
    forwarded (filter_to pad2 down2)
        (forwarded (filter_to pad1 down1) frames (World.at_count c1 s1))
        (World.at_count c2 s2)
      = forwarded (filter_to pad1 down1) frames (World.at_count c1 s1)
    ∧ pushed_on pad2 (deliver (gst_frame_filter_chain (filter_series pad1 pad2 down2)) frames
        (World.at_count c2 s2)).2.pushed
      = forwarded (filter_to pad1 down1) frames (World.at_count c1 s1)
    ∧ pushed_on pad1 (deliver (gst_frame_filter_chain (filter_series pad1 pad2 down2)) frames
        (World.at_count c2 s2)).2.pushed
      = forwarded (filter_to pad1 down1) frames (World.at_count c1 s1) := by
  refine ⟨?_, ?_, ?_⟩
  · rw [forwarded_single, forwarded_single, filter_key_idem]
  · rw [forwarded_single, deliver_series_pushed, pushed_on_append, pushed_on_series]
    simp [pushed_on, World.at_count, hpads, flatten_singletons]
  · rw [forwarded_single, deliver_series_pushed, pushed_on_append, pushed_on_series]
    simp [pushed_on, World.at_count, Ne.symm hpads, flatten_singletons]

/-- Witness of C5: the scenario through two filters with source pads 1 and 2. -/
theorem C5_second_filter_drops_nothing_witness :
    (1 : Nat) ≠ 2
    ∧ forwarded (filter_to 2 (answering GST_FLOW_OK))
        (forwarded (filter_to 1 (answering GST_FLOW_OK)) scenario (World.at_count 0 0))
        (World.at_count 2 0)
      = forwarded (filter_to 1 (answering GST_FLOW_OK)) scenario (World.at_count 0 0)
    ∧ pushed_on 2 (deliver (gst_frame_filter_chain (filter_series 1 2 (answering GST_FLOW_OK)))
        scenario (World.at_count 2 0)).2.pushed
      = forwarded (filter_to 1 (answering GST_FLOW_OK)) scenario (World.at_count 0 0)
    ∧ pushed_on 1 (deliver (gst_frame_filter_chain (filter_series 1 2 (answering GST_FLOW_OK)))
        scenario (World.at_count 2 0)).2.pushed
      = forwarded (filter_to 1 (answering GST_FLOW_OK)) scenario (World.at_count 0 0) :=
  ⟨by decide,
   C5_second_filter_drops_nothing (answering GST_FLOW_OK) (answering GST_FLOW_OK) 1 2 0 2 0 0
     scenario (by decide)⟩

/-- Counterexample to C6 as stated: a buffer whose flags word is zero, so
without the delta-unit tag, is pushed downstream, and the call returns the
`GST_FLOW_ERROR` of the peer and not `GST_FLOW_OK`. -/
theorem C6_untagged_frame_is_forwarded_counterexample :
    untagged.flags.testBit 13 = false
    ∧ GST_BUFFER_FLAG_IS_SET untagged GST_BUFFER_FLAG_DELTA_UNIT = false
    ∧ (gst_frame_filter_chain (filter_to 7 (answering GST_FLOW_ERROR)) untagged
        (World.init 0)).2.pushed = [(7, untagged)]
    ∧ (gst_frame_filter_chain (filter_to 7 (answering GST_FLOW_ERROR)) untagged
        (World.init 0)).1 = GST_FLOW_ERROR
    ∧ (gst_frame_filter_chain (filter_to 7 (answering GST_FLOW_ERROR)) untagged
        (World.init 0)).1 ≠ GST_FLOW_OK := by
  decide

/-- Claim C6 (amended): a buffer that does not carry the delta-unit tag in its
flags (bit 13 clear) is treated by the chain function as a key frame: it is
pushed downstream exactly once, unmodified, and the call returns the status of
that push, which is `GST_FLOW_OK` exactly when the peer answers so. -/
theorem C6_untagged_frame_is_forwarded {σ : Type}
    (down : GstBuffer → σ → GstFlowReturn × σ) (pad : Nat) (buf : GstBuffer) (w : World σ)
    (huntagged : buf.flags.testBit 13 = false) :
    (gst_frame_filter_chain (filter_to pad down) buf w).2.pushed = w.pushed ++ [(pad, buf)]
    ∧ (gst_frame_filter_chain (filter_to pad down) buf w).1 = (down buf w.downstream).1
    ∧ ((gst_frame_filter_chain (filter_to pad down) buf w).1 = GST_FLOW_OK ↔
        (down buf w.downstream).1 = GST_FLOW_OK) := by
  have h : GST_BUFFER_FLAG_IS_SET buf GST_BUFFER_FLAG_DELTA_UNIT = false := by
    rw [delta_unit_is_bit_13, huntagged]
  rw [chain_key down pad buf w h]
  exact ⟨rfl, rfl, Iff.rfl⟩

/-- Witness of C6 (amended): the buffer with a zero flags word, pushed to a
peer that answers `GST_FLOW_OK`. -/
theorem C6_untagged_frame_is_forwarded_witness :
    untagged.flags.testBit 13 = false
    ∧ (gst_frame_filter_chain (filter_to 7 (answering GST_FLOW_OK)) untagged
        (World.init 0)).2.pushed = [] ++ [(7, untagged)]
    ∧ (gst_frame_filter_chain (filter_to 7 (answering GST_FLOW_OK)) untagged
        (World.init 0)).1 = (answering GST_FLOW_OK untagged 0).1
    ∧ ((gst_frame_filter_chain (filter_to 7 (answering GST_FLOW_OK)) untagged
        (World.init 0)).1 = GST_FLOW_OK ↔ (answering GST_FLOW_OK untagged 0).1 = GST_FLOW_OK) :=
  ⟨by decide,
   C6_untagged_frame_is_forwarded (answering GST_FLOW_OK) 7 untagged (World.init 0) (by decide)⟩

/-- Claim C9: the number printed in "Key frame number %u" for a forwarded
frame is its 1-based position among all frames delivered to the chain function
since program start, modulo `2 ^ 32`, dropped delta frames counted too; it is
not the ordinal among key frames: the tags `[false, true, true, false, true]`
print 1 and 4.  Nothing is printed for a dropped frame. -/
theorem C9_prints_the_position_among_all_frames {σ : Type}
    (down : GstBuffer → σ → GstFlowReturn × σ) (pad : Nat) (frames : List GstBuffer) (s : σ) :
    (deliver (gst_frame_filter_chain (filter_to pad down)) frames (World.init s)).2.stdout =
        (frames.enum.filter
          (fun p => ! GST_BUFFER_FLAG_IS_SET p.2 GST_BUFFER_FLAG_DELTA_UNIT)).map
            (fun p => (p.1 + 1) % G_MAXUINT_SUCC)
    ∧ (∀ b0 b1 b2 b3 b4 : GstBuffer,
        [b0, b1, b2, b3, b4].map
            (fun b => GST_BUFFER_FLAG_IS_SET b GST_BUFFER_FLAG_DELTA_UNIT) =
          [false, true, true, false, true] →
        (deliver (gst_frame_filter_chain (filter_to pad down)) [b0, b1, b2, b3, b4]
          (World.init s)).2.stdout = [1, 4])
    ∧ (∀ (buf : GstBuffer) (w : World σ),
        GST_BUFFER_FLAG_IS_SET buf GST_BUFFER_FLAG_DELTA_UNIT = true →
        (gst_frame_filter_chain (filter_to pad down) buf w).2.stdout = w.stdout) := by
  refine ⟨?_, ?_, ?_⟩
  · rw [deliver_stdout down pad frames (World.init s) 0 rfl]
    simp [World.init, List.enum]
  · intro b0 b1 b2 b3 b4 htags
    simp only [List.map_cons, List.map_nil, List.cons.injEq, and_true] at htags
    obtain ⟨h0, h1, h2, h3, h4⟩ := htags
    rw [deliver_stdout down pad _ (World.init s) 0 rfl]
    simp [World.init, List.enumFrom, List.filter_cons, h0, h1, h2, h3, h4, G_MAXUINT_SUCC_eq]
  · intro buf w h
    rw [chain_delta (filter_to pad down) buf w h]

/-- Witness of C9: the scenario prints 1 and 4, and a delta frame given at
counter 41 prints nothing. -/
theorem C9_prints_the_position_among_all_frames_witness :
    (deliver (gst_frame_filter_chain (filter_to 7 (answering GST_FLOW_OK))) scenario
        (World.init 0)).2.stdout = [1, 4]
    ∧ (gst_frame_filter_chain (filter_to 7 (answering GST_FLOW_OK)) (frame 9 true)
        { chain_called := 41, stdout := [7], pushed := [], downstream := 0 }).2.stdout = [7] :=
  ⟨(C9_prints_the_position_among_all_frames (answering GST_FLOW_OK) 7 scenario 0).2.1
      (frame 0 false) (frame 1 true) (frame 2 true) (frame 3 false) (frame 4 true) (by decide),
   (C9_prints_the_position_among_all_frames (answering GST_FLOW_OK) 7 scenario 0).2.2
      (frame 9 true) { chain_called := 41, stdout := [7], pushed := [], downstream := 0 }
      (by decide)⟩

/-! ## Part 6: `pad_added_handler` -/

/-- The prefix test of the handler says what `wants_link` says about the caps. -/
theorem has_prefix_iff (caps : Option (List String)) :
    ( g_str_has_prefix (gst_caps_get_structure_name caps 0) "video/x-h264") = true ↔
      ∃ name rest, caps = some (name :: rest) ∧ "video/x-h264".toList <+: name.toList := by
  cases caps with
  | none => simp [gst_caps_get_structure_name, g_str_has_prefix]
  | some names =>
    cases names with
    | nil => simp [gst_caps_get_structure_name, g_str_has_prefix]
    | cons name rest =>
      simp [gst_caps_get_structure_name, g_str_has_prefix, List.isPrefixOf_iff_prefix]

/-- The handler when it attempts the link. -/
theorem handler_attempts (new_pad : NewPad) (app : App) (h : wants_link new_pad app) :
    (pad_added_handler new_pad app).link_calls =
        app.link_calls ++ [(new_pad.id, new_pad.link_result)]
    ∧ (pad_added_handler new_pad app).parser_sink_peer =
        (if new_pad.link_result = GstPadLinkReturn.OK then some new_pad.id else none)
    ∧ (pad_added_handler new_pad app).state_calls = app.state_calls := by
  obtain ⟨hcaps, hfree⟩ := h
  have hp := (has_prefix_iff new_pad.caps).mpr hcaps
  unfold pad_added_handler
  simp only [hp, gst_pad_is_linked, gst_pad_link, hfree]
  cases hr : GST_PAD_LINK_FAILED new_pad.link_result <;> simp [hr]

/-- The handler when it does not attempt the link. -/
theorem handler_ignores (new_pad : NewPad) (app : App) (h : ¬ wants_link new_pad app) :
    (pad_added_handler new_pad app).link_calls = app.link_calls
    ∧ (pad_added_handler new_pad app).parser_sink_peer = app.parser_sink_peer
    ∧ (pad_added_handler new_pad app).state_calls = app.state_calls := by
  cases hp : ( g_str_has_prefix (gst_caps_get_structure_name new_pad.caps 0) "video/x-h264") with
  | false => simp [pad_added_handler, hp]
  | true =>
    have hcaps := (has_prefix_iff new_pad.caps).mp hp
    have hlinked : app.parser_sink_peer ≠ none := fun hfree => h ⟨hcaps, hfree⟩
    have hsome : app.parser_sink_peer.isSome = true := by
      cases hpeer : app.parser_sink_peer with
      | none => exact absurd hpeer hlinked
      | some p => rfl
    simp [pad_added_handler, hp, gst_pad_is_linked, hsome]

/-- The handler keeps the linkage consistent. -/
theorem handler_keeps_linkage (new_pad : NewPad) (app : App) (h : linkage_consistent app) :
    linkage_consistent (pad_added_handler new_pad app) := by
  by_cases hw : wants_link new_pad app
  · obtain ⟨hcalls, hpeer, _⟩ := handler_attempts new_pad app hw
    have hfree : app.parser_sink_peer = none := hw.2
    have hnone : app.linked_pads = [] := by
      rcases h with ⟨_, hl⟩ | ⟨p, hp, _⟩
      · exact hl
      · rw [hfree] at hp; cases hp
    unfold App.linked_pads at hnone
    by_cases hok : new_pad.link_result = GstPadLinkReturn.OK
    · right
      refine ⟨new_pad.id, by rw [hpeer, if_pos hok], ?_⟩
      unfold App.linked_pads
      rw [hcalls, List.filter_append, List.map_append, hnone]
      simp [hok]
    · left
      refine ⟨by rw [hpeer, if_neg hok], ?_⟩
      unfold App.linked_pads
      rw [hcalls, List.filter_append, List.map_append, hnone]
      simp [hok]
  · obtain ⟨hcalls, hpeer, _⟩ := handler_ignores new_pad app hw
    unfold linkage_consistent App.linked_pads at h ⊢
    rw [hcalls, hpeer]
    exact h

/-- Any sequence of `pad-added` signals keeps the linkage consistent. -/
theorem signals_keep_linkage (pads : List NewPad) (app : App) (h : linkage_consistent app) :
    linkage_consistent (pad_added_signals pads app) := by
  induction pads generalizing app with
  | nil => exact h
  | cons p rest ih => exact ih _ (handler_keeps_linkage p app h)

/-- Claim C10: `pad_added_handler` attempts to link a new demuxer pad to the
sink pad of the parser if and only if the name of the first structure of the
caps of the pad starts with `video/x-h264` and the parser sink pad is not
linked yet; otherwise it attempts no link and leaves the linkage as it is; so
over any sequence of `pad-added` signals at most one pad ends up linked to the
parser. -/
theorem C10_links_at_most_one_h264_pad (new_pad : NewPad) (app : App) (pads : List NewPad) :
    (wants_link new_pad app →
      (pad_added_handler new_pad app).link_calls =
        app.link_calls ++ [(new_pad.id, new_pad.link_result)])
    ∧ (¬ wants_link new_pad app →
      (pad_added_handler new_pad app).link_calls = app.link_calls
      ∧ (pad_added_handler new_pad app).parser_sink_peer = app.parser_sink_peer)
    ∧ (pad_added_signals pads App.init).linked_pads.length ≤ 1
    ∧ (pad_added_signals pads App.init).parser_sink_peer =
        (pad_added_signals pads App.init).linked_pads.head? := by
  refine ⟨fun hw => (handler_attempts new_pad app hw).1,
    fun hw => ⟨(handler_ignores new_pad app hw).1, (handler_ignores new_pad app hw).2.1⟩, ?_⟩
  have hinv := signals_keep_linkage pads App.init (Or.inl ⟨rfl, rfl⟩)
  rcases hinv with ⟨hp, hl⟩ | ⟨p, hp, hl⟩
  · rw [hl, hp]; exact ⟨Nat.zero_le _, rfl⟩
  · rw [hl, hp]; exact ⟨Nat.le_refl _, rfl⟩

/-- Witness of C10: an H.264 pad arriving while the parser is free is linked;
an audio pad is not. -/
theorem C10_links_at_most_one_h264_pad_witness :
    (pad_added_handler (h264_pad 1 GstPadLinkReturn.OK) App.init).link_calls =
        App.init.link_calls ++ [((h264_pad 1 GstPadLinkReturn.OK).id,
          (h264_pad 1 GstPadLinkReturn.OK).link_result)]
    ∧ ((pad_added_handler (audio_pad 0) App.init).link_calls = App.init.link_calls
      ∧ (pad_added_handler (audio_pad 0) App.init).parser_sink_peer =
          App.init.parser_sink_peer) :=
  ⟨(C10_links_at_most_one_h264_pad (h264_pad 1 GstPadLinkReturn.OK) App.init []).1
      ⟨⟨"video/x-h264", [], rfl, List.prefix_refl _⟩, rfl⟩,
   (C10_links_at_most_one_h264_pad (audio_pad 0) App.init []).2.1
      (fun hw => by
        obtain ⟨⟨name, rest, hcaps, hpre⟩, _⟩ := hw
        have hname : name = "audio/mpeg" := by
          simp only [audio_pad, Option.some.injEq, List.cons.injEq] at hcaps
          exact hcaps.1.symm
        subst hname
        have hfalse : ¬ ("video/x-h264".toList <+: "audio/mpeg".toList) := by decide
        exact hfalse hpre)⟩

/-! ## Part 7: `main` -/

/-- The handler never touches the state of the pipeline. -/
theorem handler_state_calls (new_pad : NewPad) (app : App) :
    (pad_added_handler new_pad app).state_calls = app.state_calls := by
  by_cases hw : wants_link new_pad app
  · exact (handler_attempts new_pad app hw).2.2
  · exact (handler_ignores new_pad app hw).2.2

/-- Handling a message changes only what is printed. -/
theorem handle_message_state_calls (msg : GstMessage) (app : App) :
    (handle_message msg app).2.state_calls = app.state_calls := by
  unfold handle_message
  cases msg.type <;> simp
  split <;> rfl

/-- The bus loop never touches the state of the pipeline. -/
theorem bus_loop_state_calls (events : List Event) (app app2 : App)
    (h : bus_loop events app = some app2) : app2.state_calls = app.state_calls := by
  induction events generalizing app with
  | nil => simp [bus_loop] at h
  | cons e rest ih =>
    cases e with
    | pad_added new_pad =>
      simp only [bus_loop] at h
      rw [ih _ h, handler_state_calls]
    | bus m =>
      cases m with
      | none =>
        simp only [bus_loop] at h
        exact ih _ h
      | some msg =>
        simp only [bus_loop] at h
        by_cases ht : (handle_message msg app).1 = true
        · rw [if_pos ht] at h
          cases h
          exact handle_message_state_calls msg app
        · rw [if_neg ht] at h
          rw [ih _ h, handle_message_state_calls]

/-- The bus loop ends at the first `ERROR` or `EOS` message: it returns, and
the last line printed is the one of that message. -/
theorem bus_loop_ends (pre post : List Event) (msg : GstMessage) (app : App)
    (hpre : ∀ e ∈ pre, e.terminal = false)
    (hmsg : msg.type = GstMessageType.ERROR ∨ msg.type = GstMessageType.EOS) :
    ∃ app2, bus_loop (pre ++ Event.bus (some msg) :: post) app = some app2
      ∧ app2.out.getLast? = some (if msg.type = GstMessageType.ERROR
          then Output.error_received else Output.end_of_stream) := by
  induction pre generalizing app with
  | nil =>
    rcases hmsg with h | h
    · exact ⟨(handle_message msg app).2, by simp [bus_loop, handle_message, h],
        by simp [handle_message, h]⟩
    · exact ⟨(handle_message msg app).2, by simp [bus_loop, handle_message, h],
        by simp [handle_message, h]⟩
  | cons e rest ih =>
    have hrest : ∀ e ∈ rest, e.terminal = false := fun x hx => hpre x (List.mem_cons_of_mem _ hx)
    have he : e.terminal = false := hpre e (List.mem_cons_self _ _)
    cases e with
    | pad_added new_pad =>
      simp only [List.cons_append, bus_loop]
      exact ih _ hrest
    | bus m =>
      cases m with
      | none =>
        simp only [List.cons_append, bus_loop]
        exact ih _ hrest
      | some m1 =>
        have hnot : (handle_message m1 app).1 = false := by
          unfold handle_message
          cases hty : m1.type <;> simp_all [Event.terminal]
          split <;> rfl
        simp only [List.cons_append, bus_loop, hnot]
        exact ih _ hrest

/-- After a successful setup `main` is the bus loop followed by the teardown. -/
theorem main_after_setup (env : Env) (h : setup_succeeds env) :
    Mp4H264Key.main env =
      match bus_loop env.events { App.init with state_calls := [GstState.PLAYING] } with
      | none => (none, { App.init with state_calls := [GstState.PLAYING] })
      | some app2 => (some 0, { app2 with state_calls := app2.state_calls ++ [GstState.NULL] }) := by
  obtain ⟨h1, h2, h3, h4, h5, h6, h7, h8, h9, h10, h11, h12⟩ := h
  have hargc : ¬ env.argc < 2 := by omega
  simp [Mp4H264Key.main, hargc, h2, h3, h4, h5, h6, h7, h8, h9, h10, h11, h12, App.init]

/-- Every failure of the setup makes `main` return -1. -/
theorem main_setup_failure (env : Env) (h : ¬ setup_succeeds env) :
    (Mp4H264Key.main env).1 = some (-1) := by
  unfold Mp4H264Key.main
  by_cases h1 : env.argc < 2
  · simp [h1]
  · by_cases h2 : (!env.pipeline || !env.source || !env.demuxer || !env.parser || !env.filter ||
        !env.decoder || !env.convert || !env.auto_sink) = true
    · rw [if_neg h1, if_pos h2]
    · by_cases h3 : (!env.link_source_demuxer) = true
      · rw [if_neg h1, if_neg h2, if_pos h3]
      · by_cases h4 : (!env.link_parser_to_sink) = true
        · rw [if_neg h1, if_neg h2, if_neg h3, if_pos h4]
        · by_cases h5 : env.playing = GstStateChangeReturn.FAILURE
          · rw [if_neg h1, if_neg h2, if_neg h3, if_neg h4]
            simp only [h5, if_true]
          · exfalso
            apply h
            simp only [Bool.or_eq_true, Bool.not_eq_true', not_or, Bool.not_eq_false] at h2 h3 h4
            obtain ⟨⟨⟨⟨⟨⟨⟨e1, e2⟩, e3⟩, e4⟩, e5⟩, e6⟩, e7⟩, e8⟩ := h2
            exact ⟨by omega, e1, e2, e3, e4, e5, e6, e7, e8, h3, h4, h5⟩

/-- Counterexample to C7 as stated: the setup succeeds and the loop receives a
`GST_MESSAGE_ERROR`; `main` sets the pipeline to `GST_STATE_NULL` and returns
0, not a non-zero exit code. -/
theorem C7_bus_error_returns_zero_counterexample :
    (Mp4H264Key.main error_run).1 = some 0
    ∧ ¬ (∃ r : Int, (Mp4H264Key.main error_run).1 = some r ∧ r ≠ 0)
    ∧ Output.error_received ∈ (Mp4H264Key.main error_run).2.out
    ∧ (Mp4H264Key.main error_run).2.state_calls = [GstState.PLAYING, GstState.NULL] := by
  decide

/-- Claim C7 (amended): for every sequence of events in which the loop of
`main` receives a `GST_MESSAGE_ERROR` (the setup having succeeded and no
`ERROR` or `EOS` message having come before), `main` leaves the loop at that
message, sets the pipeline to `GST_STATE_NULL` and returns the exit code 0,
the same as after `GST_MESSAGE_EOS`. -/
theorem C7_bus_error_tears_down_and_returns_zero (env : Env) (pre post : List Event)
    (msg : GstMessage) (hsetup : setup_succeeds env)
    (hevents : env.events = pre ++ Event.bus (some msg) :: post)
    (hpre : ∀ e ∈ pre, e.terminal = false) (herror : msg.type = GstMessageType.ERROR) :
    (Mp4H264Key.main env).1 = some 0
    ∧ (Mp4H264Key.main env).2.state_calls = [GstState.PLAYING, GstState.NULL]
    ∧ (Mp4H264Key.main env).2.out.getLast? = some Output.error_received := by
  obtain ⟨app2, hloop, hlast⟩ := bus_loop_ends pre post msg
    { App.init with state_calls := [GstState.PLAYING] } hpre (Or.inl herror)
  have hcalls := bus_loop_state_calls _ _ _ hloop
  rw [main_after_setup env hsetup, hevents, hloop]
  refine ⟨rfl, ?_, ?_⟩
  · show app2.state_calls ++ [GstState.NULL] = _
    rw [hcalls]
    rfl
  · show app2.out.getLast? = _
    rw [hlast, if_pos herror]

/-- Witness of C7 (amended): the run with a decoding error. -/
theorem C7_bus_error_tears_down_and_returns_zero_witness :
    (Mp4H264Key.main error_run).1 = some 0
    ∧ (Mp4H264Key.main error_run).2.state_calls = [GstState.PLAYING, GstState.NULL]
    ∧ (Mp4H264Key.main error_run).2.out.getLast? = some Output.error_received :=
  C7_bus_error_tears_down_and_returns_zero error_run
    [message GstMessageType.STATE_CHANGED, Event.pad_added (h264_pad 1 GstPadLinkReturn.OK)]
    [] { type := GstMessageType.ERROR, from_pipeline := true }
    (by unfold setup_succeeds; decide) rfl (by decide) rfl

/-- Counterexample to C8 as stated: the link of the demuxer pad to the parser
fails in `pad_added_handler`, and `main` still returns 0. -/
theorem C8_failed_pad_link_returns_zero_counterexample :
    (Mp4H264Key.main refused_run).2.link_calls = [(1, GstPadLinkReturn.REFUSED)]
    ∧ GST_PAD_LINK_FAILED GstPadLinkReturn.REFUSED = true
    ∧ Output.link_failed ∈ (Mp4H264Key.main refused_run).2.out
    ∧ (Mp4H264Key.main refused_run).2.parser_sink_peer = none
    ∧ (Mp4H264Key.main refused_run).1 = some 0
    ∧ ¬ (∃ r : Int, (Mp4H264Key.main refused_run).1 = some r ∧ r ≠ 0) := by
  decide

/-- Claim C8 (amended): the exit code of `main` is 0 when the bus loop ends on
a `GST_MESSAGE_EOS`, and it is -1, so non-zero, on a missing input-file
argument (`argc < 2`), on any element or the pipeline failing to be created,
on either `gst_element_link_many` call failing, and on the change to the
playing state failing.  A failed link in `pad_added_handler` is not among
them: once the setup has succeeded, `main` returns 0 whenever it returns. -/
theorem C8_exit_code_of_main (env : Env) :
    ((env.argc < 2 ∨ env.pipeline = false ∨ env.source = false ∨ env.demuxer = false
        ∨ env.parser = false ∨ env.filter = false ∨ env.decoder = false
        ∨ env.convert = false ∨ env.auto_sink = false ∨ env.link_source_demuxer = false
        ∨ env.link_parser_to_sink = false ∨ env.playing = GstStateChangeReturn.FAILURE) →
      (Mp4H264Key.main env).1 = some (-1))
    ∧ (setup_succeeds env →
      (Mp4H264Key.main env).1 = none ∨ (Mp4H264Key.main env).1 = some 0)
    ∧ (setup_succeeds env → ∀ (pre post : List Event) (msg : GstMessage),
      env.events = pre ++ Event.bus (some msg) :: post →
      (∀ e ∈ pre, e.terminal = false) → msg.type = GstMessageType.EOS →
      (Mp4H264Key.main env).1 = some 0) := by
  refine ⟨?_, ?_, ?_⟩
  · intro hfail
    apply main_setup_failure
    rintro ⟨h1, h2, h3, h4, h5, h6, h7, h8, h9, h10, h11, h12⟩
    rcases hfail with h | h | h | h | h | h | h | h | h | h | h | h
    · omega
    all_goals simp_all
  · intro hsetup
    rw [main_after_setup env hsetup]
    cases bus_loop env.events { App.init with state_calls := [GstState.PLAYING] } with
    | none => exact Or.inl rfl
    | some app2 => exact Or.inr rfl
  · intro hsetup pre post msg hevents hpre heos
    obtain ⟨app2, hloop, _⟩ := bus_loop_ends pre post msg
      { App.init with state_calls := [GstState.PLAYING] } hpre (Or.inr heos)
    rw [main_after_setup env hsetup, hevents, hloop]

/-- Witness of C8 (amended): a run without the file argument returns -1, a
run whose pad link is refused returns 0, and a run that reaches the end of the
stream returns 0. -/
theorem C8_exit_code_of_main_witness :
    (Mp4H264Key.main no_file_run).1 = some (-1)
    ∧ ((Mp4H264Key.main refused_run).1 = none ∨ (Mp4H264Key.main refused_run).1 = some 0)
    ∧ (Mp4H264Key.main eos_run).1 = some 0 :=
  ⟨(C8_exit_code_of_main no_file_run).1 (Or.inl (by decide)),
   (C8_exit_code_of_main refused_run).2.1 (by unfold setup_succeeds; decide),
   (C8_exit_code_of_main eos_run).2.2 (by unfold setup_succeeds; decide)
     [message GstMessageType.STATE_CHANGED, Event.pad_added (audio_pad 0),
       Event.pad_added (h264_pad 1 GstPadLinkReturn.OK), Event.bus none]
     [] { type := GstMessageType.EOS, from_pipeline := true } rfl (by decide) rfl⟩
